import Mathlib

/-!
Shallow embedding of the signer connection/request engine of keystr
(`src/model/signer.rs`), together with theorems checking the
natural-language specification against it.

External collaborators (the nostr library codec, the relay transport,
the key-custody capability, the status sink and the process-wide event
queue) are modelled as abstract data or as outcome functions collected
in an `Env` record; all effects of the core are threaded explicitly
through a `World` record.  Rust `&mut` state is passed and returned by
value; fallible Rust code returns `Except`; code that may panic returns
`RustResult`.
-/

/-- Outcome of a Rust computation that may panic (e.g. `Vec::remove`
on an out-of-bounds index). -/
inductive RustResult (α : Type) where
  | ok (a : α)
  | panic
deriving Repr

/-- Mirrors `Vec::remove(i)`: returns the removed element and the rest,
or panics when `i` is out of bounds. -/
def vecRemove {α : Type} (xs : List α) (i : Nat) : RustResult (α × List α) :=
  if h : i < xs.length then RustResult.ok (xs.get ⟨i, h⟩, List.eraseIdx xs i)
  else RustResult.panic

/-- Errors of `src/base/error.rs` that the signer code can produce
(only the variants reachable from the embedded functions are listed;
names follow the source enum). -/
inductive Error where
  /-- `Error::SignerAlreadyConnected` -/
  | SignerAlreadyConnected
  /-- `Error::Nip46Error` (e.g. a connect-URI or message parse failure) -/
  | Nip46Error
  /-- `Error::JsonError` (serde failure in `Message::from_json`) -/
  | JsonError
  /-- `Error::RelayClientError` (transport failure) -/
  | RelayClientError
  /-- `Error::InternalEventQueueReceive` (crossbeam channel recv failure) -/
  | InternalEventQueueReceive
  /-- `Error::EventBuilderError` -/
  | EventBuilderError
deriving Repr, DecidableEq

/-- An unsigned nostr event carried by a `sign_event` request: `id` is the
32-byte event id (the content hash that gets signed), `content` the text. -/
structure UnsignedEvent where
  id : List Nat
  content : String
deriving Repr, DecidableEq

/-- The NIP-46 `Request` enum of the nostr library (external), restricted
to what the signer routes on; other recognized methods are folded into
`Other` with their method name. -/
inductive Request where
  | Connect (pk : Nat)
  | Describe
  | GetPublicKey
  | SignEvent (ev : UnsignedEvent)
  | Other (name : String)
deriving Repr, DecidableEq

/-- `Request::method()` of the nostr library. -/
def Request.method : Request → String
  | Request.Connect _ => "connect"
  | Request.Describe => "describe"
  | Request.GetPublicKey => "get_public_key"
  | Request.SignEvent _ => "sign_event"
  | Request.Other n => n

/-- The NIP-46 `Response` enum of the nostr library (external),
restricted to the variants the signer constructs. -/
inductive Response where
  | Describe (caps : List String)
  | GetPublicKey (pk : Nat)
  | SignEvent (sig : Nat)
deriving Repr, DecidableEq

deriving instance DecidableEq for Except

/-- The NIP-46 `Message` enum of the nostr library (external): a request
with id, method name and body (source variants `Message::Request` and
`Message::Response`, lowercased for Lean).  The body field carries the
outcome of the library's method/params parsing, so that `to_request` is
faithful without re-embedding the JSON codec. -/
inductive Message where
  | request (id : String) (method : String) (body : Except Unit Request)
  | response (id : String) (result : Response)
deriving Repr, DecidableEq

/-- `Message::to_request()` of the nostr library: succeeds exactly on
request messages whose method/params parse as a known `Request`. -/
def Message.to_request : Message → Except Unit Request
  | Message.request _ _ body => body
  | Message.response _ _ => Except.error ()

/-- Modelled from the spec: the key-custody capability (the repository's
`model/keystore.rs` is outside `src/`): `sign(bytes) -> signature` and
`get_public_key() -> pubkey`; the core never sees raw secret material. -/
structure KeySigner where
  sign : List Nat → Except Unit Nat
  get_public_key : Nat

/-- A nostr keypair (external library type); only the public part is
observable to the embedded code. -/
structure Keys where
  public_key : Nat
deriving Repr, DecidableEq

/-- The relay client of the nostr-sdk (external); identified by an id so
that the environment can answer per-client queries. -/
structure Client where
  id : Nat
deriving Repr, DecidableEq

/-- `RelayStatus` of the nostr-sdk (external). -/
inductive RelayStatus where
  | Initialized
  | Connecting
  | Connected
  | Disconnected
  | Terminated
deriving Repr, DecidableEq

/-- `NostrConnectURI` of the nostr library (external): the parsed connect
URI, holding the remote client's public key and the relay address. -/
structure NostrConnectURI where
  public_key : Nat
  relay_url : String
deriving Repr, DecidableEq

/-- Modelled from the spec: the typed events the core pushes onto the
process-wide notification queue (`EVENT_QUEUE` lives in a file outside
`src/`). -/
inductive Event where
  | SignerConnected
  | SignerNewRequest
deriving Repr, DecidableEq

/-- Modelled from the spec: one entry of the status sink
(`status_messages.rs` is outside `src/`): `set` or `set_error`. -/
inductive StatusEntry where
  | set (text : String)
  | set_error (text : String)
deriving Repr, DecidableEq

/-- The observable effects of the core, threaded explicitly: messages
handed to the transport (with their receiver), pushes onto the global
event queue, status-sink entries, key-custody sign invocations (by the
byte vector signed), submitted relay disconnects, spawned background
connects, relay subscriptions, and a counter for fresh client ids. -/
structure World where
  sent : List (Message × Nat)
  eventQueue : List Event
  statusLog : List StatusEntry
  signCalls : List (List Nat)
  disconnects : List Nat
  spawnedConnects : List Nat
  subscriptions : List Nat
  nextClientId : Nat

/-- Outcomes of the external collaborators: URI parsing (nostr library),
per-client relay-status snapshots (transport; `Except` failure stands for
the bridge channel failing), the transport outcome of a submitted
disconnect, the outcome of building-and-publishing a message, decryption
of an inbound ciphertext, and `Message::from_json`. -/
structure Env where
  parseURI : String → Option NostrConnectURI
  relayStatuses : Nat → Except Unit (List RelayStatus)
  disconnectResult : Nat → Except Error Unit
  sendResult : Message → Nat → Except Error Unit
  decrypt : Nat → String → Except Unit String
  fromJson : String → Except Unit Message

/-- `SignatureReqest` (source spelling): a pending request together with
its sender. -/
structure SignatureReqest where
  req : Message
  sender_pubkey : Nat

/-- `SignerConnection`: an active Nostr Connect connection.  The
`status` field of the source is a shared sink whose effects are recorded
in `World.statusLog`. -/
structure SignerConnection where
  client_pubkey : Nat
  app_id_keys : Keys
  relay_str : String
  relay_client : Client
  key_signer : KeySigner
  requests : List SignatureReqest

/-- `Signer`: the connection manager. -/
structure Signer where
  app_id_keys : Keys
  connection : Option SignerConnection
  connect_uri_input : String

/-- `ConnectionStatus` of the source: connected (carrying the
connection), connecting, or not connected. -/
inductive ConnectionStatus where
  | NotConnected
  | Connecting
  | Connected (conn : SignerConnection)

/-- Plain tag of a `ConnectionStatus`, for stating classification
theorems without comparing connection payloads. -/
inductive ConnectionStatusKind where
  | NotConnected
  | Connecting
  | Connected
deriving Repr, DecidableEq

/-- Tag of a `ConnectionStatus`. -/
def ConnectionStatus.kind : ConnectionStatus → ConnectionStatusKind
  | ConnectionStatus.NotConnected => ConnectionStatusKind.NotConnected
  | ConnectionStatus.Connecting => ConnectionStatusKind.Connecting
  | ConnectionStatus.Connected _ => ConnectionStatusKind.Connected

/-- `send_message`: builds the nostr-connect event and publishes it; the
attempt is recorded in the world, the outcome comes from the transport. -/
def send_message (env : Env) (msg : Message) (receiver_pubkey : Nat) (w : World) :
    Except Error Unit × World :=
  (env.sendResult msg receiver_pubkey, { w with sent := w.sent ++ [(msg, receiver_pubkey)] })

/-- `send_message_blocking`: submits `send_message` to the background
runtime and blocks on the result channel (the channel failure case is
folded into the environment's send outcome). -/
def send_message_blocking (env : Env) (msg : Message) (receiver_pubkey : Nat) (w : World) :
    Except Error Unit × World :=
  send_message env msg receiver_pubkey w

/-- `SignerConnection::add_request`: append a pending request at the tail. -/
def SignerConnection.add_request (conn : SignerConnection) (req : Message)
    (sender_pubkey : Nat) : SignerConnection :=
  { conn with requests := conn.requests ++ [⟨req, sender_pubkey⟩] }

/-- `SignerConnection::get_pending_count`. -/
def SignerConnection.get_pending_count (conn : SignerConnection) : Nat :=
  conn.requests.length

/-- `PREVIEW_CONTENT_LEN` of the source. -/
def PREVIEW_CONTENT_LEN : Nat := 100

/-- `shortened_text`: truncate with a trailing `..` when at least
`max_len` long. -/
def shortened_text (text : String) (max_len : Nat) : String :=
  if text.length < max_len then text else (text.take max_len) ++ ".."

/-- `SignatureReqest::description` (quote ornaments of the source's
format strings are elided). -/
def SignatureReqest.description (sr : SignatureReqest) : String :=
  match sr.req.to_request with
  | Except.error _ => "(not request, no action needed)"
  | Except.ok req =>
    match req with
    | Request.SignEvent unsigned_event =>
      "Signature requested for message: " ++
        shortened_text unsigned_event.content PREVIEW_CONTENT_LEN
    | _ => "(" ++ req.method ++ ", no action needed)"

/-- `SignerConnection::get_first_request_description`. -/
def SignerConnection.get_first_request_description (conn : SignerConnection) : String :=
  match conn.requests.head? with
  | none => "-"
  | some f => f.description

/-- `SignerConnection::action_first_req_process`: if the head is a
well-formed `SignEvent` request, sign its event id with the key-custody
capability and (when signing succeeded) publish the signed response to
the sender, ignoring the publish outcome; then `Vec::remove(0)` the
head, which panics on an empty queue. -/
def SignerConnection.action_first_req_process (env : Env) (conn : SignerConnection)
    (w : World) : RustResult (SignerConnection × World) :=
  let w1 :=
    match conn.requests.head? with
    | none => w
    | some req =>
      match req.req with
      | Message.request id _ _ =>
        match req.req.to_request with
        | Except.ok (Request.SignEvent unsigned_event) =>
          let w2 := { w with signCalls := w.signCalls ++ [unsigned_event.id] }
          match conn.key_signer.sign unsigned_event.id with
          | Except.ok signature =>
            (send_message_blocking env
              (Message.response id (Response.SignEvent signature))
              req.sender_pubkey w2).2
          | Except.error _ => w2
        | _ => w
      | _ => w
  match vecRemove conn.requests 0 with
  | RustResult.ok (_, rest) => RustResult.ok ({ conn with requests := rest }, w1)
  | RustResult.panic => RustResult.panic

/-- `SignerConnection::action_first_req_remove`: `Vec::remove(0)`,
which panics on an empty queue. -/
def SignerConnection.action_first_req_remove (conn : SignerConnection) :
    RustResult SignerConnection :=
  match vecRemove conn.requests 0 with
  | RustResult.ok (_, rest) => RustResult.ok { conn with requests := rest }
  | RustResult.panic => RustResult.panic

/-- `SignerConnection::get_connected_count_bg`: count relays reporting
Connected and Connecting. -/
def SignerConnection.get_connected_count_bg (relays : List RelayStatus) : Nat × Nat :=
  relays.foldl
    (fun acc r =>
      match r with
      | RelayStatus.Connected => (acc.1 + 1, acc.2)
      | RelayStatus.Connecting => (acc.1, acc.2 + 1)
      | _ => acc)
    (0, 0)

/-- `SignerConnection::get_connected_count`: query the snapshot over the
bridge channel; an `Except.error` is the channel/query failing. -/
def SignerConnection.get_connected_count (env : Env) (conn : SignerConnection) :
    Except Unit (Nat × Nat) :=
  match env.relayStatuses conn.relay_client.id with
  | Except.ok relays => Except.ok (SignerConnection.get_connected_count_bg relays)
  | Except.error e => Except.error e

/-- `Signer::get_connection_status`: no stored connection or a failed
transport query degrade to NotConnected; otherwise Connected when at
least one relay is connected, Connecting when none connected but at
least one connecting, NotConnected otherwise. -/
def Signer.get_connection_status (env : Env) (s : Signer) : ConnectionStatus :=
  match s.connection with
  | none => ConnectionStatus.NotConnected
  | some conn =>
    match SignerConnection.get_connected_count env conn with
    | Except.error _ => ConnectionStatus.NotConnected
    | Except.ok (connected, connecting) =>
      if connected > 0 then ConnectionStatus.Connected conn
      else if connecting > 0 then ConnectionStatus.Connecting
      else ConnectionStatus.NotConnected

/-- `relay_connect_async`: submit the background connect sequence
(fire-and-forget) for the given client; only the submission is
observable synchronously. -/
def relay_connect_async (client : Client) (w : World) : Except Error Unit × World :=
  (Except.ok (), { w with spawnedConnects := w.spawnedConnects ++ [client.id] })

/-- `Signer::connect`: refuse when the current status is Connected;
parse the URI (a failure maps to a NIP-46 error); create a fresh relay
client, build the connection, submit the background connect, and
optimistically store the connection. -/
def Signer.connect (env : Env) (s : Signer) (uri_str : String) (key_signer : KeySigner)
    (w : World) : Except Error Unit × Signer × World :=
  match Signer.get_connection_status env s with
  | ConnectionStatus.Connected _ => (Except.error Error.SignerAlreadyConnected, s, w)
  | _ =>
    match env.parseURI uri_str with
    | none => (Except.error Error.Nip46Error, s, w)
    | some uri =>
      let relay_client : Client := ⟨w.nextClientId⟩
      let w1 := { w with nextClientId := w.nextClientId + 1 }
      let connection : SignerConnection :=
        { relay_str := uri.relay_url
          relay_client := relay_client
          client_pubkey := uri.public_key
          app_id_keys := s.app_id_keys
          key_signer := key_signer
          requests := [] }
      match relay_connect_async relay_client w1 with
      | (Except.error e, w2) => (Except.error e, s, w2)
      | (Except.ok _, w2) => (Except.ok (), { s with connection := some connection }, w2)

/-- `relay_disconnect_blocking`: submit the transport disconnect and
block on its outcome; channel failure is folded into the environment's
disconnect outcome. -/
def relay_disconnect_blocking (env : Env) (relay_client : Client) (w : World) :
    Except Error Unit × World :=
  (env.disconnectResult relay_client.id,
   { w with disconnects := w.disconnects ++ [relay_client.id] })

/-- `Signer::disconnect`: when a connection is stored, run the blocking
transport disconnect and propagate its failure (leaving the connection
stored in that case); on success, or with no connection, clear the
connection. -/
def Signer.disconnect (env : Env) (s : Signer) (w : World) :
    Except Error Unit × Signer × World :=
  match s.connection with
  | some conn =>
    match relay_disconnect_blocking env conn.relay_client w with
    | (Except.error e, w1) => (Except.error e, s, w1)
    | (Except.ok _, w1) => (Except.ok (), { s with connection := none }, w1)
  | none => (Except.ok (), { s with connection := none }, w)

/-- `Signer::disconnect_action`: when a connection is stored, run
`disconnect` ignoring its result and report via the status sink; in all
cases clear the connection. -/
def Signer.disconnect_action (env : Env) (s : Signer) (w : World) : Signer × World :=
  match s.connection with
  | some _ =>
    let (_res_ignore, s1, w1) := Signer.disconnect env s w
    let w2 := { w1 with statusLog := w1.statusLog ++ [StatusEntry.set "Signer disconnected"] }
    ({ s1 with connection := none }, w2)
  | none => ({ s with connection := none }, w)

/-- `Signer::connect_action`: run `connect` on the stored URI input and
report the outcome via the status sink. -/
def Signer.connect_action (env : Env) (s : Signer) (key_signer : KeySigner) (w : World) :
    Signer × World :=
  let uri_input := s.connect_uri_input
  match Signer.connect env s uri_input key_signer w with
  | (Except.error _, s1, w1) =>
    (s1, { w1 with statusLog := w1.statusLog ++
      [StatusEntry.set_error "Could not connect to relay"] })
  | (Except.ok _, s1, w1) =>
    (s1, { w1 with statusLog := w1.statusLog ++ [StatusEntry.set "Signer connecting..."] })

/-- `Signer::pending_process_first_action`: with no stored connection
this does nothing; otherwise describe the head, process it (which may
panic on an empty queue) and report via the status sink. -/
def Signer.pending_process_first_action (env : Env) (s : Signer) (w : World) :
    RustResult (Signer × World) :=
  match s.connection with
  | none => RustResult.ok (s, w)
  | some conn =>
    let first_desc := conn.get_first_request_description
    match SignerConnection.action_first_req_process env conn w with
    | RustResult.panic => RustResult.panic
    | RustResult.ok (conn1, w1) =>
      RustResult.ok ({ s with connection := some conn1 },
        { w1 with statusLog := w1.statusLog ++
          [StatusEntry.set ("Processed request " ++ first_desc)] })

/-- `Signer::pending_ignore_first_action`: with no stored connection
this does nothing; otherwise describe the head, remove it (which may
panic on an empty queue) and report via the status sink. -/
def Signer.pending_ignore_first_action (_env : Env) (s : Signer) (w : World) :
    RustResult (Signer × World) :=
  match s.connection with
  | none => RustResult.ok (s, w)
  | some conn =>
    let first_desc := conn.get_first_request_description
    match SignerConnection.action_first_req_remove conn with
    | RustResult.panic => RustResult.panic
    | RustResult.ok conn1 =>
      RustResult.ok ({ s with connection := some conn1 },
        { w with statusLog := w.statusLog ++
          [StatusEntry.set ("Removed request " ++ first_desc)] })

/-- `response_for_message`: Describe and GetPublicKey are answered with
an immediate response message; SignEvent and every other request yield
none. -/
def response_for_message (req_id : String) (req : Request) (key_signer : KeySigner) :
    Option Message :=
  match req with
  | Request.Describe =>
    let values := ["describe", "get_public_key", "sign_event"]
    some (Message.response req_id (Response.Describe values))
  | Request.GetPublicKey =>
    some (Message.response req_id (Response.GetPublicKey key_signer.get_public_key))
  | _ => none

/-- `handle_request`: for a request message with a decodable body,
either send the immediate response (propagating a send failure), or for
SignEvent store the request, push a SignerNewRequest notification and
report via the status sink; everything else is only logged. -/
def handle_request (env : Env) (conn : SignerConnection) (msg : Message)
    (sender_pubkey : Nat) (w : World) :
    Except Error Unit × SignerConnection × World :=
  match msg with
  | Message.request id _ _ =>
    match msg.to_request with
    | Except.ok req =>
      let key_signer := conn.key_signer
      match response_for_message id req key_signer with
      | some m =>
        match send_message env m sender_pubkey w with
        | (Except.ok _, w1) => (Except.ok (), conn, w1)
        | (Except.error e, w1) => (Except.error e, conn, w1)
      | none =>
        match req with
        | Request.SignEvent _ =>
          let conn1 := conn.add_request msg sender_pubkey
          let w1 := { w with eventQueue := w.eventQueue ++ [Event.SignerNewRequest] }
          let w2 := { w1 with statusLog := w1.statusLog ++
            [StatusEntry.set "New Signing request received"] }
          (Except.ok (), conn1, w2)
        | _ => (Except.ok (), conn, w)
    | Except.error _ => (Except.ok (), conn, w)
  | Message.response _ _ => (Except.ok (), conn, w)

/-- `Kind` of a relay event (external nostr type), restricted to the
NostrConnect kind the loop filters on. -/
inductive Kind where
  | NostrConnect
  | OtherKind
deriving Repr, DecidableEq

/-- An inbound relay event as delivered by the pool: kind, author
public key and (encrypted) content. -/
structure RelayEvent where
  kind : Kind
  pubkey : Nat
  content : String
deriving Repr, DecidableEq

/-- `RelayPoolNotification` (external), restricted to what the loop
matches on. -/
inductive PoolItem where
  | event (url : String) (ev : RelayEvent)
  | other
deriving Repr, DecidableEq

/-- Body of the listen loop of `wait_and_handle_messages`, iterated over
a finite prefix of the inbound stream: a non-NostrConnect item is
skipped, a decryption failure is logged and the item dropped, a
`Message::from_json` failure or a `handle_request` failure ends the
loop with that error. -/
def handle_pool_items (env : Env) (conn : SignerConnection) (items : List PoolItem)
    (w : World) : Except Error Unit × SignerConnection × World :=
  match items with
  | [] => (Except.ok (), conn, w)
  | item :: rest =>
    match item with
    | PoolItem.other => handle_pool_items env conn rest w
    | PoolItem.event _ ev =>
      if ev.kind = Kind.NostrConnect then
        match env.decrypt ev.pubkey ev.content with
        | Except.ok plain =>
          match env.fromJson plain with
          | Except.ok msg =>
            match handle_request env conn msg ev.pubkey w with
            | (Except.ok _, conn1, w1) => handle_pool_items env conn1 rest w1
            | (Except.error e, conn1, w1) => (Except.error e, conn1, w1)
          | Except.error _ => (Except.error Error.JsonError, conn, w)
        | Except.error _ => handle_pool_items env conn rest w
      else handle_pool_items env conn rest w

/-- `wait_and_handle_messages`: subscribe to the connection's own key,
then run the listen loop over the inbound stream (modelled as a finite
prefix). -/
def wait_and_handle_messages (env : Env) (conn : SignerConnection)
    (items : List PoolItem) (w : World) : Except Error Unit × SignerConnection × World :=
  let w1 := { w with subscriptions := w.subscriptions ++ [conn.app_id_keys.public_key] }
  handle_pool_items env conn items w1

/-- Is a relay status Connected? (specification-side predicate). -/
def isRelayConnected : RelayStatus → Bool
  | RelayStatus.Connected => true
  | _ => false

/-- Is a relay status Connecting? (specification-side predicate). -/
def isRelayConnecting : RelayStatus → Bool
  | RelayStatus.Connecting => true
  | _ => false

/-- Empty world for concrete evaluations. -/
def w0 : World :=
  { sent := [], eventQueue := [], statusLog := [], signCalls := [], disconnects := []
    spawnedConnects := [], subscriptions := [], nextClientId := 0 }

/-- A concrete key-custody capability whose signing always succeeds. -/
def okKeySigner : KeySigner :=
  { sign := fun _ => Except.ok 7, get_public_key := 42 }

/-- A baseline environment for concrete evaluations. -/
def baseEnv : Env :=
  { parseURI := fun _ => none
    relayStatuses := fun _ => Except.error ()
    disconnectResult := fun _ => Except.ok ()
    sendResult := fun _ _ => Except.ok ()
    decrypt := fun _ content => Except.ok content
    fromJson := fun _ => Except.error () }

/-- A concrete connection with an empty pending queue. -/
def connEmpty : SignerConnection :=
  { client_pubkey := 9, app_id_keys := ⟨1⟩, relay_str := "wss"
    relay_client := ⟨0⟩, key_signer := okKeySigner, requests := [] }

/-- A concrete sign-event request message. -/
def signEventMsg : Message :=
  Message.request "rid" "sign_event" (Except.ok (Request.SignEvent ⟨[1, 2, 3], "hello"⟩))

/-- A concrete connection with one pending sign-event request. -/
def connOneSign : SignerConnection :=
  { connEmpty with requests := [⟨signEventMsg, 8⟩] }

/-- A concrete signer with no stored connection. -/
def signerNone : Signer :=
  { app_id_keys := ⟨1⟩, connection := none, connect_uri_input := "" }

/-- A concrete signer holding `connEmpty`. -/
def signerConn : Signer :=
  { app_id_keys := ⟨1⟩, connection := some connEmpty, connect_uri_input := "" }

/-- Environment whose relay snapshot reports one connected relay. -/
def envConnected : Env :=
  { baseEnv with relayStatuses := fun _ => Except.ok [RelayStatus.Connected] }

/-- A concrete describe request message (decoded form of "good"). -/
def describeMsg : Message :=
  Message.request "d1" "describe" (Except.ok Request.Describe)

/-- Environment for the listen-loop scenario: everything decrypts to
itself, the payload "good" decodes to a describe request, any other
payload is malformed JSON, and payload "undecipherable" fails to
decrypt. -/
def envLoop : Env :=
  { baseEnv with
    decrypt := fun _ content =>
      if content = "undecipherable" then Except.error () else Except.ok content
    fromJson := fun plain =>
      if plain = "good" then Except.ok describeMsg else Except.error () }

/-- An inbound event whose body decrypts but is not valid envelope JSON. -/
def evBadJson : RelayEvent := ⟨Kind.NostrConnect, 8, "bad"⟩

/-- An inbound event carrying a well-formed describe request. -/
def evGood : RelayEvent := ⟨Kind.NostrConnect, 8, "good"⟩

/-- An inbound event that fails to decrypt. -/
def evNoDecrypt : RelayEvent := ⟨Kind.NostrConnect, 8, "undecipherable"⟩

/-- `envLoop` with a transport whose publishes always fail. -/
def envSendFail : Env :=
  { envLoop with sendResult := fun _ _ => Except.error Error.RelayClientError }

/-- Environment for the immediate-second-connect window: every relay
snapshot still reports one relay Connecting (the background connect has
not completed), and every URI parses (to client pubkey 5). -/
def envConnecting : Env :=
  { baseEnv with
    relayStatuses := fun _ => Except.ok [RelayStatus.Connecting]
    parseURI := fun _ => some ⟨5, "wss2"⟩ }

/-- `Vec::remove(0)` on a non-empty vector removes the head. -/
theorem vecRemove_cons_zero {α : Type} (a : α) (l : List α) :
    vecRemove (a :: l) 0 = RustResult.ok (a, l) := by
  simp [vecRemove]

/-- C2: the claim says processing or ignoring the first pending request
on an empty queue is a silent no-op; the code instead reaches
`Vec::remove(0)` on the empty vector, which panics.  This theorem
evaluates both operations at the failing input (a connection with an
empty queue). -/
theorem action_first_req_on_empty_queue_panics :
    SignerConnection.action_first_req_remove connEmpty = RustResult.panic
    ∧ SignerConnection.action_first_req_process baseEnv connEmpty w0 = RustResult.panic := by
  constructor
  · rfl
  · rfl

/-- C10: with no stored connection, both pending-queue operator actions
are complete no-ops: the signer, the queue, the transport, the sign
capability and the status sink are all untouched. -/
theorem pending_actions_noop_without_connection :
    ∀ (env : Env) (s : Signer) (w : World), s.connection = none →
      Signer.pending_process_first_action env s w = RustResult.ok (s, w)
      ∧ Signer.pending_ignore_first_action env s w = RustResult.ok (s, w) := by
  intro env s w h
  obtain ⟨ak, c, ui⟩ := s
  cases h
  exact ⟨rfl, rfl⟩

/-- Witness for C10 at a concrete signer with no connection. -/
theorem pending_actions_noop_without_connection_witness :
    Signer.pending_process_first_action baseEnv signerNone w0 = RustResult.ok (signerNone, w0)
    ∧ Signer.pending_ignore_first_action baseEnv signerNone w0
        = RustResult.ok (signerNone, w0) :=
  pending_actions_noop_without_connection baseEnv signerNone w0 rfl

/-- C4: the pending queue is strictly FIFO: `add_request` appends at the
tail, and on a non-empty queue both removal operations remove exactly
the head, so elements leave the queue in insertion order. -/
theorem pending_queue_fifo :
    (∀ (conn : SignerConnection) (req : Message) (sender : Nat),
      (conn.add_request req sender).requests = conn.requests ++ [⟨req, sender⟩])
    ∧ (∀ (conn : SignerConnection) (r : SignatureReqest) (rest : List SignatureReqest),
        conn.requests = r :: rest →
        conn.action_first_req_remove = RustResult.ok { conn with requests := rest }
        ∧ ∀ (env : Env) (w : World), ∃ w1,
            SignerConnection.action_first_req_process env conn w
              = RustResult.ok ({ conn with requests := rest }, w1)) := by
  constructor
  · intro conn req sender
    rfl
  · intro conn r rest h
    obtain ⟨cp, ak, rs, rc, ks, reqs⟩ := conn
    cases h
    constructor
    · simp [SignerConnection.action_first_req_remove, vecRemove_cons_zero]
    · intro env w
      simp only [SignerConnection.action_first_req_process, vecRemove_cons_zero]
      exact ⟨_, rfl⟩

/-- Witness for C4 at a one-element queue. -/
theorem pending_queue_fifo_witness :
    SignerConnection.action_first_req_remove connOneSign
      = RustResult.ok { connOneSign with requests := [] } :=
  ((pending_queue_fifo.2 connOneSign ⟨signEventMsg, 8⟩ [] rfl).1)

/-- C6: when the head of the queue is a well-formed SignEvent request,
`action_first_req_process` invokes the key-custody capability on the
request's event id (the content hash); if signing succeeds, exactly one
signed response envelope is handed to the transport addressed to the
original sender.  A signing failure sends nothing, and in every case
(including any publish outcome) the operation returns without error,
the head is removed, and no retry is recorded. -/
theorem process_first_sign_event :
    ∀ (env : Env) (conn : SignerConnection) (w : World) (id method : String)
      (ue : UnsignedEvent) (sender : Nat) (rest : List SignatureReqest),
      conn.requests
          = ⟨Message.request id method (Except.ok (Request.SignEvent ue)), sender⟩ :: rest →
      (match conn.key_signer.sign ue.id with
       | Except.ok sig =>
         SignerConnection.action_first_req_process env conn w
           = RustResult.ok ({ conn with requests := rest },
               { w with
                 signCalls := w.signCalls ++ [ue.id]
                 sent := w.sent ++ [(Message.response id (Response.SignEvent sig), sender)] })
       | Except.error _ =>
         SignerConnection.action_first_req_process env conn w
           = RustResult.ok ({ conn with requests := rest },
               { w with signCalls := w.signCalls ++ [ue.id] })) := by
  intro env conn w id method ue sender rest h
  obtain ⟨cp, ak, rs, rc, ks, reqs⟩ := conn
  cases h
  cases hs : ks.sign ue.id with
  | ok sig =>
    simp [SignerConnection.action_first_req_process, vecRemove_cons_zero, hs,
      send_message_blocking, send_message, Message.to_request]
  | error e =>
    simp [SignerConnection.action_first_req_process, vecRemove_cons_zero, hs,
      Message.to_request]

/-- Witness for C6: a one-element queue with an always-succeeding
signer produces the signed response and removes the head. -/
theorem process_first_sign_event_witness :
    SignerConnection.action_first_req_process baseEnv connOneSign w0
      = RustResult.ok ({ connOneSign with requests := [] },
          { w0 with
            signCalls := [[1, 2, 3]]
            sent := [(Message.response "rid" (Response.SignEvent 7), 8)] }) :=
  process_first_sign_event baseEnv connOneSign w0 "rid" "sign_event" ⟨[1, 2, 3], "hello"⟩ 8 [] rfl

/-- C5: routing of inbound decoded requests by `handle_request`:
Describe and GetPublicKey are answered immediately (a response envelope
is handed to the transport) and never enqueued and never notified;
SignEvent is never answered immediately and always appended to the
pending queue with a SignerNewRequest notification; a connect request,
an unrecognized request, an undecodable body and a response message are
all ignored with no send and no queue entry. -/
theorem handle_request_routing :
    ∀ (env : Env) (conn : SignerConnection) (w : World) (id method : String) (sender : Nat),
      ((handle_request env conn (Message.request id method (Except.ok Request.Describe))
          sender w).2.1 = conn
        ∧ (handle_request env conn (Message.request id method (Except.ok Request.Describe))
            sender w).2.2.sent
          = w.sent ++ [(Message.response id
              (Response.Describe ["describe", "get_public_key", "sign_event"]), sender)]
        ∧ (handle_request env conn (Message.request id method (Except.ok Request.Describe))
            sender w).2.2.eventQueue = w.eventQueue)
      ∧ ((handle_request env conn (Message.request id method (Except.ok Request.GetPublicKey))
          sender w).2.1 = conn
        ∧ (handle_request env conn (Message.request id method (Except.ok Request.GetPublicKey))
            sender w).2.2.sent
          = w.sent ++ [(Message.response id
              (Response.GetPublicKey conn.key_signer.get_public_key), sender)]
        ∧ (handle_request env conn (Message.request id method (Except.ok Request.GetPublicKey))
            sender w).2.2.eventQueue = w.eventQueue)
      ∧ (∀ ue, handle_request env conn
          (Message.request id method (Except.ok (Request.SignEvent ue))) sender w
          = (Except.ok (),
             { conn with requests := conn.requests
                 ++ [⟨Message.request id method (Except.ok (Request.SignEvent ue)), sender⟩] },
             { w with
               eventQueue := w.eventQueue ++ [Event.SignerNewRequest]
               statusLog := w.statusLog ++ [StatusEntry.set "New Signing request received"] }))
      ∧ (∀ pk, handle_request env conn
          (Message.request id method (Except.ok (Request.Connect pk))) sender w
          = (Except.ok (), conn, w))
      ∧ (∀ other, handle_request env conn
          (Message.request id method (Except.ok (Request.Other other))) sender w
          = (Except.ok (), conn, w))
      ∧ handle_request env conn (Message.request id method (Except.error ())) sender w
          = (Except.ok (), conn, w)
      ∧ (∀ resp, handle_request env conn (Message.response id resp) sender w
          = (Except.ok (), conn, w)) := by
  intro env conn w id method sender
  refine ⟨?_, ?_, ?_, ?_, ?_, ?_, ?_⟩
  · cases hs : env.sendResult (Message.response id
        (Response.Describe ["describe", "get_public_key", "sign_event"])) sender with
    | ok u =>
      simp [handle_request, Message.to_request, response_for_message, send_message, hs]
    | error e =>
      simp [handle_request, Message.to_request, response_for_message, send_message, hs]
  · cases hs : env.sendResult (Message.response id
        (Response.GetPublicKey conn.key_signer.get_public_key)) sender with
    | ok u =>
      simp [handle_request, Message.to_request, response_for_message, send_message, hs]
    | error e =>
      simp [handle_request, Message.to_request, response_for_message, send_message, hs]
  · intro ue
    rfl
  · intro pk
    rfl
  · intro other
    rfl
  · rfl
  · intro resp
    rfl

/-- C1 counterexample: the claim fails on the code.  A signer holds a
live connection (stored by a successful connect, no disconnect yet,
client pubkey 9) whose relay still reports Connecting — the immediate
second-connect window left open by the optimistic, backgrounded
connect.  A second call to `connect` with a valid URI does not fail
with the already-connected error: it returns ok and silently replaces
the stored connection (the stored client pubkey becomes 5). -/
theorem connect_silently_replaces_live_connecting_connection :
    (Signer.get_connection_status envConnecting signerConn).kind
        = ConnectionStatusKind.Connecting
    ∧ (Signer.connect envConnecting signerConn "nostrconnect" okKeySigner w0).1
        = Except.ok ()
    ∧ ((Signer.connect envConnecting signerConn "nostrconnect" okKeySigner w0).2.1.connection.map
        SignerConnection.client_pubkey) = some 5
    ∧ signerConn.connection.map SignerConnection.client_pubkey = some 9 := by
  refine ⟨rfl, rfl, rfl, rfl⟩

/-- C1 as amended: the already-connected guard is keyed to the live
relay status, not to the stored connection.  While the status reports
Connected, a second `connect` (for any URI) fails with the
already-connected error and leaves the signer — stored connection and
session identity included — and the world untouched.  But while a
stored connection's status is not yet Connected (e.g. still Connecting
right after an optimistic connect), a second `connect` with a valid URI
succeeds and silently replaces the stored connection with a freshly
built one. -/
theorem connect_guard_only_when_status_connected :
    (∀ (env : Env) (s : Signer) (uri : String) (ks : KeySigner) (w : World),
      (Signer.get_connection_status env s).kind = ConnectionStatusKind.Connected →
      Signer.connect env s uri ks w = (Except.error Error.SignerAlreadyConnected, s, w))
    ∧ (∀ (env : Env) (s : Signer) (conn : SignerConnection) (uri : String)
        (u : NostrConnectURI) (ks : KeySigner) (w : World),
        s.connection = some conn →
        (Signer.get_connection_status env s).kind ≠ ConnectionStatusKind.Connected →
        env.parseURI uri = some u →
        Signer.connect env s uri ks w
          = (Except.ok (),
             { s with connection := some {
                 relay_str := u.relay_url
                 relay_client := ⟨w.nextClientId⟩
                 client_pubkey := u.public_key
                 app_id_keys := s.app_id_keys
                 key_signer := ks
                 requests := [] } },
             { w with
               nextClientId := w.nextClientId + 1
               spawnedConnects := w.spawnedConnects ++ [w.nextClientId] })) := by
  constructor
  · intro env s uri ks w h
    cases hst : Signer.get_connection_status env s with
    | NotConnected =>
      rw [hst] at h
      simp [ConnectionStatus.kind] at h
    | Connecting =>
      rw [hst] at h
      simp [ConnectionStatus.kind] at h
    | Connected conn =>
      simp [Signer.connect, hst]
  · intro env s conn uri u ks w _hc hk hp
    cases hst : Signer.get_connection_status env s with
    | Connected c =>
      rw [hst] at hk
      simp [ConnectionStatus.kind] at hk
    | NotConnected =>
      simp [Signer.connect, hst, hp, relay_connect_async]
    | Connecting =>
      simp [Signer.connect, hst, hp, relay_connect_async]

/-- Witness for the amended C1: with one connected relay the guard
fires and nothing changes; with one still-connecting relay the second
connect replaces the stored connection. -/
theorem connect_guard_only_when_status_connected_witness :
    Signer.connect envConnected signerConn "nostrconnect" okKeySigner w0
        = (Except.error Error.SignerAlreadyConnected, signerConn, w0)
    ∧ Signer.connect envConnecting signerConn "nostrconnect" okKeySigner w0
        = (Except.ok (),
           { signerConn with connection := some {
               relay_str := "wss2", relay_client := ⟨0⟩, client_pubkey := 5
               app_id_keys := ⟨1⟩, key_signer := okKeySigner, requests := [] } },
           { w0 with nextClientId := 1, spawnedConnects := [0] }) :=
  ⟨connect_guard_only_when_status_connected.1 envConnected signerConn "nostrconnect"
    okKeySigner w0 rfl,
   connect_guard_only_when_status_connected.2 envConnecting signerConn connEmpty
    "nostrconnect" ⟨5, "wss2"⟩ okKeySigner w0 rfl (by decide) rfl⟩

/-- C7: with no stored connection, `connect` on a URI the parser
rejects returns the parse error synchronously and changes nothing (no
connection stored, no client created, no background task spawned), and
the status still reports NotConnected. -/
theorem connect_malformed_uri_no_state_change :
    ∀ (env : Env) (s : Signer) (uri : String) (ks : KeySigner) (w : World),
      s.connection = none → env.parseURI uri = none →
      Signer.connect env s uri ks w = (Except.error Error.Nip46Error, s, w)
      ∧ (Signer.get_connection_status env s).kind = ConnectionStatusKind.NotConnected := by
  intro env s uri ks w hc hp
  have hst : Signer.get_connection_status env s = ConnectionStatus.NotConnected := by
    simp [Signer.get_connection_status, hc]
  constructor
  · simp [Signer.connect, hst, hp]
  · rw [hst]
    rfl

/-- Witness for C7: the baseline environment parses no URI. -/
theorem connect_malformed_uri_no_state_change_witness :
    Signer.connect baseEnv signerNone "not-a-uri" okKeySigner w0
        = (Except.error Error.Nip46Error, signerNone, w0)
    ∧ (Signer.get_connection_status baseEnv signerNone).kind
        = ConnectionStatusKind.NotConnected :=
  connect_malformed_uri_no_state_change baseEnv signerNone "not-a-uri" okKeySigner w0 rfl rfl

/-- C8: `disconnect_action` always ends with no stored connection; when
a connection was stored, the transport disconnect is submitted and
waited on, and still — whatever its outcome — the connection is cleared
and the action reports normally via the status sink (the
transport-level failure is not propagated: the resulting state is the
same for every outcome). -/
theorem disconnect_action_clears_connection :
    (∀ (env : Env) (s : Signer) (w : World),
      (Signer.disconnect_action env s w).1.connection = none)
    ∧ (∀ (env : Env) (s : Signer) (conn : SignerConnection) (w : World),
        s.connection = some conn →
        Signer.disconnect_action env s w
          = ({ s with connection := none },
             { w with
               disconnects := w.disconnects ++ [conn.relay_client.id]
               statusLog := w.statusLog ++ [StatusEntry.set "Signer disconnected"] })) := by
  constructor
  · intro env s w
    obtain ⟨ak, c, ui⟩ := s
    cases c with
    | none => rfl
    | some conn =>
      cases hd : env.disconnectResult conn.relay_client.id with
      | ok u =>
        simp [Signer.disconnect_action, Signer.disconnect, relay_disconnect_blocking, hd]
      | error e =>
        simp [Signer.disconnect_action, Signer.disconnect, relay_disconnect_blocking, hd]
  · intro env s conn w h
    obtain ⟨ak, c, ui⟩ := s
    cases h
    cases hd : env.disconnectResult conn.relay_client.id with
    | ok u =>
      simp [Signer.disconnect_action, Signer.disconnect, relay_disconnect_blocking, hd]
    | error e =>
      simp [Signer.disconnect_action, Signer.disconnect, relay_disconnect_blocking, hd]

/-- Witness for C8 at a signer holding a connection. -/
theorem disconnect_action_clears_connection_witness :
    Signer.disconnect_action baseEnv signerConn w0
      = ({ signerConn with connection := none },
         { w0 with disconnects := [0], statusLog := [StatusEntry.set "Signer disconnected"] }) :=
  disconnect_action_clears_connection.2 baseEnv signerConn connEmpty w0 rfl

/-- The relay-status fold counts exactly the Connected and the
Connecting relays. -/
theorem get_connected_count_bg_eq :
    ∀ (rs : List RelayStatus),
      SignerConnection.get_connected_count_bg rs
        = (rs.countP isRelayConnected, rs.countP isRelayConnecting) := by
  have go : ∀ (rs : List RelayStatus) (a b : Nat),
      List.foldl
        (fun acc r =>
          match r with
          | RelayStatus.Connected => (acc.1 + 1, acc.2)
          | RelayStatus.Connecting => (acc.1, acc.2 + 1)
          | _ => acc)
        (a, b) rs
        = (a + rs.countP isRelayConnected, b + rs.countP isRelayConnecting) := by
    intro rs
    induction rs with
    | nil =>
      intro a b
      simp
    | cons r tl ih =>
      intro a b
      cases r <;>
        simp [List.countP_cons, isRelayConnected, isRelayConnecting, ih, Prod.ext_iff] <;>
        omega
  intro rs
  simpa [SignerConnection.get_connected_count_bg] using go rs 0 0

/-- Connected-status check as an equation on the relay status. -/
theorem isRelayConnected_eq_true :
    ∀ r : RelayStatus, isRelayConnected r = true ↔ r = RelayStatus.Connected := by
  intro r
  cases r <;> simp [isRelayConnected]

/-- Connecting-status check as an equation on the relay status. -/
theorem isRelayConnecting_eq_true :
    ∀ r : RelayStatus, isRelayConnecting r = true ↔ r = RelayStatus.Connecting := by
  intro r
  cases r <;> simp [isRelayConnecting]

/-- C9: status classification.  With a stored connection and a
successful relay snapshot: Connected exactly when at least one relay
reports connected, Connecting exactly when none is connected and at
least one is connecting, NotConnected exactly otherwise.  With no
stored connection, or when the snapshot query fails, the status is
NotConnected instead of an error. -/
theorem get_connection_status_classification :
    (∀ (env : Env) (s : Signer) (conn : SignerConnection) (rs : List RelayStatus),
      s.connection = some conn →
      env.relayStatuses conn.relay_client.id = Except.ok rs →
      (((Signer.get_connection_status env s).kind = ConnectionStatusKind.Connected)
          ↔ ∃ r ∈ rs, r = RelayStatus.Connected)
      ∧ (((Signer.get_connection_status env s).kind = ConnectionStatusKind.Connecting)
          ↔ (¬ (∃ r ∈ rs, r = RelayStatus.Connected)
             ∧ ∃ r ∈ rs, r = RelayStatus.Connecting))
      ∧ (((Signer.get_connection_status env s).kind = ConnectionStatusKind.NotConnected)
          ↔ (¬ (∃ r ∈ rs, r = RelayStatus.Connected)
             ∧ ¬ (∃ r ∈ rs, r = RelayStatus.Connecting))))
    ∧ (∀ (env : Env) (s : Signer), s.connection = none →
        (Signer.get_connection_status env s).kind = ConnectionStatusKind.NotConnected)
    ∧ (∀ (env : Env) (s : Signer) (conn : SignerConnection),
        s.connection = some conn →
        env.relayStatuses conn.relay_client.id = Except.error () →
        (Signer.get_connection_status env s).kind = ConnectionStatusKind.NotConnected) := by
  refine ⟨?_, ?_, ?_⟩
  · intro env s conn rs hc hr
    have hcc : SignerConnection.get_connected_count env conn
        = Except.ok (rs.countP isRelayConnected, rs.countP isRelayConnecting) := by
      simp [SignerConnection.get_connected_count, hr, get_connected_count_bg_eq]
    have hex1 : (0 < rs.countP isRelayConnected) ↔ ∃ r ∈ rs, r = RelayStatus.Connected := by
      rw [List.countP_pos_iff]
      exact exists_congr fun r => and_congr_right fun _ => isRelayConnected_eq_true r
    have hex2 : (0 < rs.countP isRelayConnecting) ↔ ∃ r ∈ rs, r = RelayStatus.Connecting := by
      rw [List.countP_pos_iff]
      exact exists_congr fun r => and_congr_right fun _ => isRelayConnecting_eq_true r
    have hkind : (Signer.get_connection_status env s).kind
        = (if 0 < rs.countP isRelayConnected then ConnectionStatusKind.Connected
           else if 0 < rs.countP isRelayConnecting then ConnectionStatusKind.Connecting
           else ConnectionStatusKind.NotConnected) := by
      simp only [Signer.get_connection_status, hc, hcc, gt_iff_lt]
      by_cases h1 : 0 < rs.countP isRelayConnected
      · simp [h1, ConnectionStatus.kind]
      · by_cases h2 : 0 < rs.countP isRelayConnecting
        · simp [h1, h2, ConnectionStatus.kind]
        · simp [h1, h2, ConnectionStatus.kind]
    rw [hkind, ← hex1, ← hex2]
    by_cases h1 : 0 < rs.countP isRelayConnected <;>
      by_cases h2 : 0 < rs.countP isRelayConnecting <;>
      simp [h1, h2]
  · intro env s h
    obtain ⟨ak, c, ui⟩ := s
    cases h
    rfl
  · intro env s conn hc hr
    simp [Signer.get_connection_status, SignerConnection.get_connected_count, hc, hr,
      ConnectionStatus.kind]

/-- Witness for C9: one connected relay classifies as Connected. -/
theorem get_connection_status_classification_witness :
    (Signer.get_connection_status envConnected signerConn).kind
      = ConnectionStatusKind.Connected :=
  ((get_connection_status_classification.1 envConnected signerConn connEmpty
      [RelayStatus.Connected] rfl rfl).1).mpr ⟨RelayStatus.Connected, by simp, rfl⟩

/-- C3 counterexample: a single inbound message that decrypts fine but
is not valid envelope JSON terminates the whole listen loop with an
error, and a well-formed describe request queued right behind it is
never processed (no reply is ever handed to the transport) — the loop
does not drop just the one item and continue. -/
theorem listen_loop_killed_by_single_bad_message :
    (wait_and_handle_messages envLoop connEmpty
        [PoolItem.event "u" evBadJson, PoolItem.event "u" evGood] w0).1
      = Except.error Error.JsonError
    ∧ (wait_and_handle_messages envLoop connEmpty
        [PoolItem.event "u" evBadJson, PoolItem.event "u" evGood] w0).2.2.sent = [] := by
  constructor
  · rfl
  · rfl

/-- C3 as amended: per-message resilience holds only for decryption
failures — such an item is dropped and the loop continues with state
unchanged; but an item whose envelope JSON is malformed terminates the
loop with the JSON error, and an item whose handling fails (e.g. the
reply publish fails) terminates the loop with that error. -/
theorem listen_loop_per_message_failure_behavior :
    (∀ (env : Env) (conn : SignerConnection) (url : String) (ev : RelayEvent)
       (rest : List PoolItem) (w : World),
       ev.kind = Kind.NostrConnect →
       env.decrypt ev.pubkey ev.content = Except.error () →
       handle_pool_items env conn (PoolItem.event url ev :: rest) w
         = handle_pool_items env conn rest w)
    ∧ (∀ (env : Env) (conn : SignerConnection) (url : String) (ev : RelayEvent)
        (plain : String) (rest : List PoolItem) (w : World),
        ev.kind = Kind.NostrConnect →
        env.decrypt ev.pubkey ev.content = Except.ok plain →
        env.fromJson plain = Except.error () →
        handle_pool_items env conn (PoolItem.event url ev :: rest) w
          = (Except.error Error.JsonError, conn, w))
    ∧ (∀ (env : Env) (conn : SignerConnection) (url : String) (ev : RelayEvent)
        (plain : String) (msg : Message) (e : Error) (rest : List PoolItem) (w : World),
        ev.kind = Kind.NostrConnect →
        env.decrypt ev.pubkey ev.content = Except.ok plain →
        env.fromJson plain = Except.ok msg →
        (handle_request env conn msg ev.pubkey w).1 = Except.error e →
        handle_pool_items env conn (PoolItem.event url ev :: rest) w
          = (Except.error e, (handle_request env conn msg ev.pubkey w).2.1,
             (handle_request env conn msg ev.pubkey w).2.2)) := by
  refine ⟨?_, ?_, ?_⟩
  · intro env conn url ev rest w hk hd
    simp [handle_pool_items, hk, hd]
  · intro env conn url ev plain rest w hk hd hj
    simp [handle_pool_items, hk, hd, hj]
  · intro env conn url ev plain msg e rest w hk hd hj hh
    rcases hr : handle_request env conn msg ev.pubkey w with ⟨r1, c1, w1⟩
    rw [hr] at hh
    simp at hh
    cases hh
    simp [handle_pool_items, hk, hd, hj, hr]

/-- Witness for the amended C3: a decryption failure is skipped, a
malformed-JSON item ends the loop, and a failing reply publish ends the
loop. -/
theorem listen_loop_per_message_failure_behavior_witness :
    handle_pool_items envLoop connEmpty [PoolItem.event "u" evNoDecrypt] w0
        = handle_pool_items envLoop connEmpty [] w0
    ∧ handle_pool_items envLoop connEmpty [PoolItem.event "u" evBadJson] w0
        = (Except.error Error.JsonError, connEmpty, w0)
    ∧ handle_pool_items envSendFail connEmpty [PoolItem.event "u" evGood] w0
        = (Except.error Error.RelayClientError,
           (handle_request envSendFail connEmpty describeMsg 8 w0).2.1,
           (handle_request envSendFail connEmpty describeMsg 8 w0).2.2) :=
  ⟨listen_loop_per_message_failure_behavior.1 envLoop connEmpty "u" evNoDecrypt [] w0 rfl rfl,
   listen_loop_per_message_failure_behavior.2.1 envLoop connEmpty "u" evBadJson "bad" [] w0
     rfl rfl rfl,
   listen_loop_per_message_failure_behavior.2.2 envSendFail connEmpty "u" evGood "good"
     describeMsg Error.RelayClientError [] w0 rfl rfl rfl rfl⟩
